import Mathlib

/-!
Shallow embedding of the core of the clawsquare/agent-sdk client:
request signing (src/crypto/signing.ts), agent-identity derivation
(src/crypto, key generation module), the HTTP transport's rate-limit retry
(src/client/http.ts), the WebSocket connection's dispatch/reconnect state
machine (src/ws/connection.ts), and the autonomous agent loop
(src/loop: AgentLoop and LoopContextImpl).

JavaScript asynchrony is modelled by explicit state passing: each method
becomes a pure function on a state record, with the ambient inputs the source
draws from its environment (random nonces, the clock, network responses,
handler outcomes) passed as arguments.
-/

set_option maxRecDepth 100000

namespace ClawSDK

/-! ### JSON values

Models the JavaScript values that cross `JSON.stringify` in the SDK.
`JSON.stringify(undefined)` returning no string at all is modelled by using
`Option JsValue` at call sites where the source checks `!== undefined`. -/

inductive JsValue where
  | str (s : String)
  | num (n : Int)
  | boolean (b : Bool)
  | null
  | obj (fields : List (String × JsValue))
  | arr (elems : List JsValue)
deriving Repr

mutual

/-- Model of `JSON.stringify` on defined values (no `undefined` inside). -/
def jsonStringify : JsValue → String
  | .str s => "\"" ++ s ++ "\""
  | .num n => toString n
  | .boolean b => if b then "true" else "false"
  | .null => "null"
  | .obj fields => "\x7b" ++ jsonStringifyFields fields ++ "\x7d"
  | .arr elems => "[" ++ jsonStringifyElems elems ++ "]"

def jsonStringifyFields : List (String × JsValue) → String
  | [] => ""
  | [(k, v)] => "\"" ++ k ++ "\":" ++ jsonStringify v
  | (k, v) :: rest => "\"" ++ k ++ "\":" ++ jsonStringify v ++ "," ++ jsonStringifyFields rest

def jsonStringifyElems : List JsValue → String
  | [] => ""
  | [v] => jsonStringify v
  | v :: rest => jsonStringify v ++ "," ++ jsonStringifyElems rest

end

/-- Field lookup on a JSON object (`data['key']` / `data.key`). -/
def JsValue.field (v : JsValue) (k : String) : Option JsValue :=
  match v with
  | .obj fields => (fields.find? (fun f => f.1 = k)).map (fun f => f.2)
  | _ => none

/-- Narrowing of a JSON value to a string (`typeof v === 'string'` use sites). -/
def JsValue.asString : JsValue → Option String
  | .str s => some s
  | _ => none

/-! ### Signer (src/crypto/signing.ts) -/

/-- Source `buildSignatureMessage(body, nonce, timestamp)`:
`typeof body === 'string' ? body : JSON.stringify(body)`, then plain
template-literal concatenation with no separators. -/
def buildSignatureMessage (body : JsValue) (nonce timestamp : String) : String :=
  let bodyString := match body with
    | .str s => s
    | v => jsonStringify v
  bodyString ++ nonce ++ timestamp

/-- The five X-Claw-* headers of an authenticated request. -/
structure ClawHeaders where
  agentId : String
  signature : String
  nonce : String
  timestamp : String
  manifestHash : String
deriving DecidableEq, Repr

/-- Source `buildClawHeaders(bodyString, agentId, privateKeyDer, manifestHash?)`.
The Ed25519 primitive `signMessage` is abstracted as the function argument
`sign : privateKey → message → signature`; the freshly drawn nonce and the
clock reading `Math.floor(Date.now() / 1000)` are explicit arguments, since the
source draws both inside this function (once per call). -/
def buildClawHeaders (sign : String → String → String) (bodyString agentId privateKey : String)
    (manifestHash : Option String) (nonce timestamp : String) : ClawHeaders :=
  let message := buildSignatureMessage (.str bodyString) nonce timestamp
  { agentId := agentId
    signature := sign privateKey message
    nonce := nonce
    timestamp := timestamp
    manifestHash := manifestHash.getD (String.mk (List.replicate 64 '0')) }

/-! ### Transport (src/client/http.ts) -/

/-- HTTP methods accepted by `RequestOptions`. -/
inductive HttpMethod where
  | GET | POST | PATCH | PUT | DELETE
deriving DecidableEq, Repr

/-- Source: `if (opts.method !== 'GET' && opts.body !== undefined)
bodyString = JSON.stringify(opts.body)` — otherwise `bodyString` stays
`undefined`. -/
def requestBodyString (method : HttpMethod) (body : Option JsValue) : Option String :=
  if method ≠ HttpMethod.GET then body.map jsonStringify else none

/-- Source: `const signBody = bodyString ?? '\x7b\x7d'` — the canonical body
signed when the request carries no application body. -/
def requestSignBody (method : HttpMethod) (body : Option JsValue) : String :=
  (requestBodyString method body).getD "\x7b\x7d"

/-- The typed API error (`ClawApiError` in src/types/errors.ts). -/
structure ClawApiError where
  status : Nat
  errorCode : String
  message : String
  remediation : Option String
deriving DecidableEq, Repr

/-- One observed HTTP response: status, optional Retry-After header
(in integer seconds, already parsed), the parsed JSON body, and the status
text used as a message fallback. -/
structure HttpResponse where
  status : Nat
  retryAfter : Option Nat
  json : JsValue
  statusText : String

/-- Model of WHATWG fetch `Response.ok`: status in the range 200–299. -/
def HttpResponse.resOk (r : HttpResponse) : Bool :=
  decide (200 ≤ r.status ∧ r.status ≤ 299)

/-- One `RequestInit` produced by a `buildInit()` call: the auth headers
(when `opts.auth` was set), the extra caller headers merged in afterwards
(e.g. `X-PAYMENT` for x402), and the serialized body. -/
structure InitModel where
  clawHeaders : Option ClawHeaders
  extraHeaders : List (String × String)
  bodyString : Option String
deriving Repr

/-- Caller-configured retry knobs of `HttpClientConfig`. -/
structure RetryConfig where
  retryOnRateLimit : Bool
  maxRetries : Nat
deriving Repr

/-- Source: `const waitMs = retryAfter ? parseInt(retryAfter, 10) * 1000 : 1000`. -/
def retryWaitMs (r : HttpResponse) : Nat :=
  match r.retryAfter with
  | some sec => sec * 1000
  | none => 1000

/-- Construction of the typed error from a non-2xx response:
`json['error_code'] ?? 'HTTP_<status>'`, `json['message'] ?? statusText`,
`json['remediation']`. -/
def mkApiError (r : HttpResponse) : ClawApiError :=
  { status := r.status
    errorCode := ((r.json.field "error_code").bind JsValue.asString).getD
      ("HTTP_" ++ toString r.status)
    message := ((r.json.field "message").bind JsValue.asString).getD r.statusText
    remediation := (r.json.field "remediation").bind JsValue.asString }

/-- The terminal handling of a response in `executeWithRetry`:
`res.ok` yields the parsed JSON, a non-2xx status throws the typed error. -/
def settleResponse (res : HttpResponse) : Except ClawApiError JsValue :=
  if res.resOk then Except.ok res.json else Except.error (mkApiError res)

/-- Source `HttpClient.executeWithRetry(url, buildInit, attempt)`.

The network is modelled by `responses : Nat → HttpResponse`, the response the
server gives to the fetch performed at a given attempt index.  Each attempt
begins with `const init = await buildInit()` — the closure either produces a
fresh `RequestInit` (drawing a new nonce and timestamp for its signed
headers) or throws the missing-keys error, which propagates; the model passes
the attempt index to `buildInit` to index its successive random draws.  The
function returns the trace of attempts performed — for each one, the
`RequestInit` it passed to fetch — together with the waits taken between
attempts (in ms) and the final outcome. -/
def executeWithRetryGo (cfg : RetryConfig) (responses : Nat → HttpResponse)
    (buildInit : Nat → Except ClawApiError InitModel) :
    Nat → Nat → List InitModel × List Nat × Except ClawApiError JsValue
  | gas, attempt =>
    match buildInit attempt with
    | Except.error e => ([], [], Except.error e)
    | Except.ok init =>
      let res := responses attempt
      if res.status = 429 ∧ cfg.retryOnRateLimit = true ∧ attempt < cfg.maxRetries then
        match gas with
        | gas' + 1 =>
          let rest := executeWithRetryGo cfg responses buildInit gas' (attempt + 1)
          (init :: rest.1, retryWaitMs res :: rest.2.1, rest.2.2)
        | 0 => ([init], [], settleResponse res)
      else
        ([init], [], settleResponse res)

/-- Entry point: `gas` is instantiated with `cfg.maxRetries - attempt`, which
bounds the number of remaining retries (each retry requires
`attempt < cfg.maxRetries` and increments `attempt`), so the gas-exhausted
arm above is never taken from here; the recursion structure is otherwise the
source's. -/
def executeWithRetry (cfg : RetryConfig) (responses : Nat → HttpResponse)
    (buildInit : Nat → Except ClawApiError InitModel) (attempt : Nat) :
    List InitModel × List Nat × Except ClawApiError JsValue :=
  executeWithRetryGo cfg responses buildInit (cfg.maxRetries - attempt) attempt

/-- The `buildInit` closure constructed inside `HttpClient.request(opts)`:
on every call it assembles fresh headers — for an authenticated request it
reads the key store (the `keys` argument, from `getPrivateKey()` /
`getAgentId()`), throws the typed missing-keys error when either is absent,
signs `bodyString ?? '\x7b\x7d'` via `buildClawHeaders` (which draws a new
nonce and timestamp on each invocation: the streams `nonces` / `timestamps`
are consumed at the index of the draw), and finally merges any extra caller
headers.  The captured `bodyString` is shared by every attempt. -/
def buildInit (sign : String → String → String)
    (keys : Option String × Option String) (manifestHash : Option String)
    (nonces timestamps : Nat → String) (auth : Bool) (bodyString : Option String)
    (extraHeaders : List (String × String)) (draw : Nat) :
    Except ClawApiError InitModel :=
  if auth then
    match keys with
    | (some privateKey, some agentId) =>
      let signBody := bodyString.getD "\x7b\x7d"
      let headers :=
        buildClawHeaders sign signBody agentId privateKey manifestHash
          (nonces draw) (timestamps draw)
      Except.ok ⟨some headers, extraHeaders, bodyString⟩
    | _ =>
      Except.error ⟨0, "SDK_NO_KEYS", "No keys stored. Call generateKeys() first.", none⟩
  else
    Except.ok ⟨none, extraHeaders, bodyString⟩

/-- Source `HttpClient.request(opts)`: serialize the body once, build the
`buildInit` closure over it, and hand both to `executeWithRetry` starting at
attempt 0 — so every attempt, including each 429 retry, re-runs `buildInit`
and signs with a freshly drawn nonce and timestamp. -/
def request (cfg : RetryConfig) (sign : String → String → String)
    (keys : Option String × Option String) (manifestHash : Option String)
    (nonces timestamps : Nat → String)
    (method : HttpMethod) (body : Option JsValue) (auth : Bool)
    (extraHeaders : List (String × String)) (responses : Nat → HttpResponse) :
    List InitModel × List Nat × Except ClawApiError JsValue :=
  let bodyString := requestBodyString method body
  executeWithRetry cfg responses
    (buildInit sign keys manifestHash nonces timestamps auth bodyString extraHeaders) 0

/-! ### Event Connection (src/ws/connection.ts) -/

/-- An inbound `ServerMessage` frame after `JSON.parse`:
`{ event: string, data: object, id?: string }`. -/
structure Frame where
  event : String
  data : JsValue
  frameId : Option String
deriving Repr

/-- Accessor used by the `notification:new` case of `handleMessage`:
`(data as NotificationEvent).notification?.type`. -/
def notifInnerType (data : JsValue) : Option String :=
  ((data.field "notification").bind (fun n => n.field "type")).bind JsValue.asString

/-- Source `WsConnection.handleMessage(raw)`, as a mapping from the parsed
frame (`none` models a `JSON.parse` failure, which returns early) to the
sequence of listener-set emissions it performs, in order, as
(event-kind, payload) pairs.  Unrecognized tags fall through to the default
case and produce no emission; the function is total, so no frame raises. -/
def handleMessage : Option Frame → List (String × JsValue)
  | none => []
  | some f =>
    match f.event with
    | "agent:dm" => [("dm", f.data)]
    | "agent:mentioned" => [("mention", f.data)]
    | "notification:new" =>
      ("notification", f.data) ::
        (if notifInnerType f.data = some "watch_update" then [("watch_update", f.data)] else [])
    | "notification:unread" => [("unread", f.data)]
    | _ => []

/-! #### Listener-set emission (src/ws/connection.ts `emit` / `off`)

`emit` iterates the live `Set<Listener>` stored in the listeners map:
`for (const handler of handlers) { try { handler(data) } catch {} }`.
JavaScript `Set` iteration visits elements in insertion order and is *live*:
an element deleted by `off` during iteration, before the iterator reaches it,
is never visited; deleting an already-visited element changes nothing for the
in-flight iteration.

A listener set is modelled as a duplicate-free list of listener identifiers in
insertion order.  A listener's observable effect on the set (its `off` calls
during its own execution) is `removes : Nat → List Nat`.  `emitOnSet` returns
the identifiers invoked, in order. -/

/-- One step of live-`Set` iteration: visit the first member of the current
set that has not been visited yet, apply the visited listener's removals, and
continue.  `fuel` bounds recursion; `emitOnSet` supplies the set size, which
suffices because removals never grow the set. -/
def emitLiveIter (removes : Nat → List Nat) :
    Nat → List Nat → List Nat → List Nat
  | 0, _, _ => []
  | fuel + 1, set, visited =>
    match set.find? (fun l => ! visited.contains l) with
    | none => []
    | some l =>
      let set' := set.filter (fun x => ! (removes l).contains x)
      l :: emitLiveIter removes fuel set' (visited ++ [l])

/-- Source `emit(event, data)` restricted to one event kind's listener set:
the list of listeners invoked for one emission, given the set's contents at
the moment the emission begins. -/
def emitOnSet (removes : Nat → List Nat) (set : List Nat) : List Nat :=
  emitLiveIter removes set.length set []

/-- Source `WsConnection.connect()` auth step:
`buildClawHeaders('\x7b\x7d', agentId, privateKey, manifestHash)` — the
handshake signs the empty-object body exactly like a bodyless HTTP call, and
the resulting five fields are appended to the connection URI as query
parameters. -/
def wsConnectClawHeaders (sign : String → String → String) (agentId privateKey : String)
    (manifestHash : Option String) (nonce timestamp : String) : ClawHeaders :=
  buildClawHeaders sign "\x7b\x7d" agentId privateKey manifestHash nonce timestamp

/-! #### Reconnection state machine (src/ws/connection.ts) -/

/-- Constructor-time configuration: `autoReconnect ?? true`,
`maxReconnectDelay ?? 30000`. -/
structure WsConfig where
  autoReconnect : Bool
  maxReconnectDelay : Nat
deriving Repr

/-- The mutable fields of a `WsConnection` relevant to reconnection:
`reconnectAttempt`, the pending `reconnectTimer` (recorded with the delay it
was armed with), `intentionalClose`, and whether the underlying socket is
open (`ws.readyState === OPEN`). -/
structure WsState where
  reconnectAttempt : Nat
  reconnectTimer : Option Nat
  intentionalClose : Bool
  wsOpen : Bool
deriving DecidableEq, Repr

/-- Source `scheduleReconnect()`: compute
`min(1000 * Math.pow(2, reconnectAttempt), maxReconnectDelay)`, then increment
`reconnectAttempt`, then arm the timer with that delay. -/
def scheduleReconnect (cfg : WsConfig) (s : WsState) : WsState :=
  let delay := min (1000 * 2 ^ s.reconnectAttempt) cfg.maxReconnectDelay
  { s with reconnectAttempt := s.reconnectAttempt + 1, reconnectTimer := some delay }

/-- Source `disconnect()`: set `intentionalClose`, synchronously clear any
pending reconnect timer, close and null the socket. -/
def wsDisconnect (s : WsState) : WsState :=
  { s with intentionalClose := true, reconnectTimer := none, wsOpen := false }

/-- The asynchronous occurrences the connection reacts to.  `openEvt` /
`closeEvt` / `errorEvt` are the socket's listeners in `connect()`;
`disconnectCall` and `connectCall` are the public methods (`connectCall`
models only the synchronous prefix of `connect()`, which resets
`intentionalClose` before any await); `timerFire` is the reconnect timer
callback, which re-enters `connect()` — a failed re-connection surfaces later
as a further `closeEvt`, it is caught and never propagated. -/
inductive WsEvent where
  | openEvt | closeEvt | errorEvt | disconnectCall | connectCall | timerFire
deriving DecidableEq, Repr

/-- One transition of the connection state machine. -/
def wsStep (cfg : WsConfig) (s : WsState) : WsEvent → WsState
  | .openEvt => { s with reconnectAttempt := 0, wsOpen := true }
  | .closeEvt =>
    let s1 := { s with wsOpen := false }
    if ¬ s1.intentionalClose ∧ cfg.autoReconnect then scheduleReconnect cfg s1 else s1
  | .errorEvt => s
  | .disconnectCall => wsDisconnect s
  | .connectCall => if s.wsOpen then s else { s with intentionalClose := false }
  | .timerFire =>
    match s.reconnectTimer with
    | none => s
    | some _ =>
      let s1 := { s with reconnectTimer := none }
      if s1.wsOpen then s1 else { s1 with intentionalClose := false }

/-! ### Agent Loop (src/loop: AgentLoop, LoopContextImpl)

User-supplied handlers are modelled as functions
`LoopCtx → LoopCtx × Option String`: the handler may mutate the shared
context (it holds a reference to the live object, so mutations made before a
throw persist) and either returns normally (`none`) or throws / rejects with
an error (`some message`). -/

/-- The `ErrorSource` tags of src/loop/types.ts. -/
inductive ErrorSource where
  | start | tick | dm | mention | notification | unread | watch_update | stop
deriving DecidableEq, Repr

/-- `LoopContextImpl`: the mutable bag shared by every scheduled callback. -/
structure LoopCtx where
  agentId : Option String
  tickCount : Nat
  running : Bool
  lastTickAt : Option Nat
  stateBag : List (String × String)
  stopRequested : Bool
deriving DecidableEq, Repr

/-- A user handler: final context plus `some err` when it threw. -/
def LoopHandler : Type := LoopCtx → LoopCtx × Option String

/-- `AgentLoopConfig` after the constructor applied its defaults
(`tickInterval ?? 60000`, `autoConnect ?? true`, `immediateFirstTick ?? true`).
Event handlers also take the frame payload in the source; their payload
argument is irrelevant to the loop's own state transitions, so they are
recorded here only through their presence. -/
structure LoopCfg where
  tickInterval : Nat
  autoConnect : Bool
  immediateFirstTick : Bool
  onTick : Option LoopHandler
  onStart : Option LoopHandler
  onStop : Option LoopHandler
  hasOnDm : Bool
  hasOnMention : Bool
  hasOnNotification : Bool
  hasOnUnread : Bool
  hasOnWatchUpdate : Bool

/-- The fields of an `AgentLoop` instance: the context, the private `started`
flag, whether `tickTimer` is armed, the keys of `boundListeners`, whether the
owned connection is open, and the trace of invocations of the configured
error handler (each recorded as error message × source tag; the handler's own
possible throw is caught and swallowed by `safeCall`, so the invocation
itself is the only observable). -/
structure LoopState where
  ctx : LoopCtx
  started : Bool
  tickTimerArmed : Bool
  boundListeners : List String
  wsConnected : Bool
  errorLog : List (String × ErrorSource)
deriving DecidableEq, Repr

/-- Source `AgentLoop.safeCall(fn, source)`: await `fn`; on a throw, invoke
the error handler with `(err, source)` — exactly one invocation — and swallow
anything the error handler itself throws. -/
def safeCallResult (fn : LoopHandler) (source : ErrorSource) (s : LoopState) : LoopState :=
  match fn s.ctx with
  | (ctx', none) => { s with ctx := ctx' }
  | (ctx', some e) => { s with ctx := ctx', errorLog := s.errorLog ++ [(e, source)] }

/-- The closure `executeTick` passes to `safeCall`:
`await onTick(ctx); ctx.tickCount++; ctx.lastTickAt = Date.now();`.
When `onTick` throws, the throw escapes before the two counter updates run. -/
def tickClosure (onTick : LoopHandler) (now : Nat) : LoopHandler :=
  fun ctx =>
    match onTick ctx with
    | (ctx', none) =>
      ({ ctx' with tickCount := ctx'.tickCount + 1, lastTickAt := some now }, none)
    | (ctx', some e) => (ctx', some e)

/-- The `mappings` table of `registerListeners`: which event kinds get a bound
listener (exactly those with a configured handler). -/
def registeredEvents (cfg : LoopCfg) : List String :=
  [("dm", cfg.hasOnDm), ("mention", cfg.hasOnMention),
   ("notification", cfg.hasOnNotification), ("unread", cfg.hasOnUnread),
   ("watch_update", cfg.hasOnWatchUpdate)].filterMap
    (fun p => if p.2 then some p.1 else none)

/-- Source `AgentLoop.stop()`: a no-op unless started; otherwise cancel the
tick timer, remove every bound listener, disconnect when `autoConnect`, flip
`running` and `started` to false, then run `onStop` through `safeCall` with
source tag `stop`. -/
def stopLoop (cfg : LoopCfg) (s : LoopState) : LoopState :=
  if s.started = false then s
  else
    let s1 := { s with tickTimerArmed := false, boundListeners := [] }
    let s2 := if cfg.autoConnect then { s1 with wsConnected := false } else s1
    let s3 := { s2 with ctx := { s2.ctx with running := false }, started := false }
    match cfg.onStop with
    | some h => safeCallResult h ErrorSource.stop s3
    | none => s3

/-- Source `AgentLoop.executeTick()`: return immediately unless `started` and
an `onTick` handler is configured; otherwise run the tick closure through
`safeCall` under source tag `tick`, then honor a cooperative stop request
(the source defers `void this.stop()`; the model applies that stop at the end
of the same firing, which is the point at which its effects become
observable). -/
def executeTick (cfg : LoopCfg) (now : Nat) (s : LoopState) : LoopState :=
  match s.started, cfg.onTick with
  | true, some handler =>
    let s1 := safeCallResult (tickClosure handler now) ErrorSource.tick s
    if s1.ctx.stopRequested then stopLoop cfg s1 else s1
  | _, _ => s

/-- Source `AgentLoop.start()`: throw when already started (state untouched —
the pair's second component carries the thrown message); otherwise mark
running, clear the leftover stop request, resolve the agent id (the
`resolvedAgentId` argument), connect when `autoConnect` (`connectResult` is
`none` on success, `some err` on a handshake failure, which is routed to the
error handler under source `start` and is non-fatal), register the bound
listeners, run `onStart` through `safeCall`, then — when a tick handler is
configured — fire the immediate first tick if enabled and arm the interval
timer. -/
def startLoop (cfg : LoopCfg) (resolvedAgentId : Option String)
    (connectResult : Option String) (now : Nat) (s : LoopState) :
    LoopState × Option String :=
  if s.started then
    (s, some "AgentLoop is already running. Call stop() first.")
  else
    let ctx1 := { s.ctx with running := true, stopRequested := false }
    let s1 := { s with started := true, ctx := ctx1 }
    let s2 := { s1 with ctx := { s1.ctx with agentId := resolvedAgentId } }
    let s3 :=
      if cfg.autoConnect then
        match connectResult with
        | none => { s2 with wsConnected := true }
        | some e => { s2 with errorLog := s2.errorLog ++ [(e, ErrorSource.start)] }
      else s2
    let s4 := { s3 with boundListeners := registeredEvents cfg }
    let s5 := match cfg.onStart with
      | some h => safeCallResult h ErrorSource.start s4
      | none => s4
    let s6 := match cfg.onTick with
      | some _ =>
        let sTick := if cfg.immediateFirstTick then executeTick cfg now s5 else s5
        { sTick with tickTimerArmed := true }
      | none => s5
    (s6, none)

/-! ### Agent identity derivation (src/crypto key module, `deriveAgentId`)

`deriveAgentId` computes
`crypto.createHash('sha256').update(publicKeyHex).digest('hex').substring(0, 16)`.
SHA-256 is embedded executably below over byte lists (`Nat` below 256), with
32-bit words as `Nat` reduced modulo 2^32. -/

/-- Truncation to a 32-bit word. -/
def w32 (n : Nat) : Nat := n % 4294967296

/-- 32-bit addition. -/
def wadd (a b : Nat) : Nat := (a + b) % 4294967296

/-- 32-bit bitwise complement (arguments are kept below 2^32). -/
def wnot (a : Nat) : Nat := 4294967295 - w32 a

/-- Right rotation of a 32-bit word. -/
def rotr (n x : Nat) : Nat := w32 ((x >>> n) ||| (x <<< (32 - n)))

def smallSigma0 (x : Nat) : Nat := (rotr 7 x) ^^^ (rotr 18 x) ^^^ (x >>> 3)

def smallSigma1 (x : Nat) : Nat := (rotr 17 x) ^^^ (rotr 19 x) ^^^ (x >>> 10)

def bigSigma0 (x : Nat) : Nat := (rotr 2 x) ^^^ (rotr 13 x) ^^^ (rotr 22 x)

def bigSigma1 (x : Nat) : Nat := (rotr 6 x) ^^^ (rotr 11 x) ^^^ (rotr 25 x)

def chFn (x y z : Nat) : Nat := (x &&& y) ^^^ (wnot x &&& z)

def majFn (x y z : Nat) : Nat := (x &&& y) ^^^ (x &&& z) ^^^ (y &&& z)

/-- The 64 SHA-256 round constants. -/
def sha256K : Array Nat := #[
  0x428A2F98, 0x71374491, 0xB5C0FBCF, 0xE9B5DBA5, 0x3956C25B, 0x59F111F1, 0x923F82A4, 0xAB1C5ED5,
  0xD807AA98, 0x12835B01, 0x243185BE, 0x550C7DC3, 0x72BE5D74, 0x80DEB1FE, 0x9BDC06A7, 0xC19BF174,
  0xE49B69C1, 0xEFBE4786, 0x0FC19DC6, 0x240CA1CC, 0x2DE92C6F, 0x4A7484AA, 0x5CB0A9DC, 0x76F988DA,
  0x983E5152, 0xA831C66D, 0xB00327C8, 0xBF597FC7, 0xC6E00BF3, 0xD5A79147, 0x06CA6351, 0x14292967,
  0x27B70A85, 0x2E1B2138, 0x4D2C6DFC, 0x53380D13, 0x650A7354, 0x766A0ABB, 0x81C2C92E, 0x92722C85,
  0xA2BFE8A1, 0xA81A664B, 0xC24B8B70, 0xC76C51A3, 0xD192E819, 0xD6990624, 0xF40E3585, 0x106AA070,
  0x19A4C116, 0x1E376C08, 0x2748774C, 0x34B0BCB5, 0x391C0CB3, 0x4ED8AA4A, 0x5B9CCA4F, 0x682E6FF3,
  0x748F82EE, 0x78A5636F, 0x84C87814, 0x8CC70208, 0x90BEFFFA, 0xA4506CEB, 0xBEF9A3F7, 0xC67178F2]

/-- Big-endian byte decomposition of `n` into `k` bytes. -/
def bytesBE (k n : Nat) : List Nat :=
  (List.range k).reverse.map (fun i => (n >>> (8 * i)) % 256)

/-- SHA-256 message padding: append 0x80, zero bytes, then the 64-bit
big-endian bit length, reaching a multiple of 64 bytes. -/
def sha256pad (msg : List Nat) : List Nat :=
  let len := msg.length
  let padZeros := (55 + 64 - len % 64) % 64
  msg ++ [0x80] ++ List.replicate padZeros 0 ++ bytesBE 8 (8 * len)

/-- Group bytes into big-endian 32-bit words. -/
def toWords : List Nat → List Nat
  | b0 :: b1 :: b2 :: b3 :: rest =>
    ((b0 <<< 24) + (b1 <<< 16) + (b2 <<< 8) + b3) :: toWords rest
  | _ => []

/-- Extend the 16 words of a block to the 64-entry message schedule. -/
def extendWords (ws : Array Nat) : Array Nat :=
  (List.range 48).foldl (fun ws j =>
    ws.push (wadd (wadd ws[j]! (smallSigma0 ws[j+1]!))
                  (wadd ws[j+9]! (smallSigma1 ws[j+14]!)))) ws

/-- The eight working variables of the compression function. -/
structure Hash8 where
  a : Nat
  b : Nat
  c : Nat
  d : Nat
  e : Nat
  f : Nat
  g : Nat
  h : Nat
deriving DecidableEq, Repr

/-- The SHA-256 initial hash value. -/
def sha256H0 : Hash8 :=
  ⟨0x6A09E667, 0xBB67AE85, 0x3C6EF372, 0xA54FF53A, 0x510E527F, 0x9B05688C, 0x1F83D9AB, 0x5BE0CD19⟩

/-- 64 rounds of the compression function on one message schedule. -/
def compress (ws : Array Nat) (st : Hash8) : Hash8 :=
  (List.range 64).foldl (fun st i =>
    let t1 := wadd st.h (wadd (bigSigma1 st.e) (wadd (chFn st.e st.f st.g) (wadd sha256K[i]! ws[i]!)))
    let t2 := wadd (bigSigma0 st.a) (majFn st.a st.b st.c)
    ⟨wadd t1 t2, st.a, st.b, st.c, wadd st.d t1, st.e, st.f, st.g⟩) st

/-- Componentwise 32-bit addition of two hash states. -/
def hash8add (x y : Hash8) : Hash8 :=
  ⟨wadd x.a y.a, wadd x.b y.b, wadd x.c y.c, wadd x.d y.d,
   wadd x.e y.e, wadd x.f y.f, wadd x.g y.g, wadd x.h y.h⟩

/-- Split a byte list into 64-byte chunks; the fuel argument makes the
recursion structural and is supplied with the list length, which always
suffices since each step drops 64 elements off a non-empty list. -/
def chunks64Go : Nat → List Nat → List (List Nat)
  | 0, _ => []
  | fuel + 1, bs =>
    if bs.length = 0 then [] else bs.take 64 :: chunks64Go fuel (bs.drop 64)

/-- Split a byte list into 64-byte chunks. -/
def chunks64 (bs : List Nat) : List (List Nat) :=
  chunks64Go bs.length bs

/-- SHA-256 of a byte sequence, as the 32-byte digest. -/
def sha256 (msg : List Nat) : List Nat :=
  let final := (chunks64 (sha256pad msg)).foldl
    (fun st block => hash8add st (compress (extendWords (Array.mk (toWords block))) st))
    sha256H0
  bytesBE 4 final.a ++ bytesBE 4 final.b ++ bytesBE 4 final.c ++ bytesBE 4 final.d ++
  bytesBE 4 final.e ++ bytesBE 4 final.f ++ bytesBE 4 final.g ++ bytesBE 4 final.h

/-- UTF-8 encoding of one code point (what Node's `hash.update(string)` feeds
the hash for each character of a JS string). -/
def utf8EncodeChar (c : Char) : List Nat :=
  let n := c.toNat
  if n < 0x80 then [n]
  else if n < 0x800 then [0xC0 ||| (n >>> 6), 0x80 ||| (n &&& 0x3F)]
  else if n < 0x10000 then
    [0xE0 ||| (n >>> 12), 0x80 ||| ((n >>> 6) &&& 0x3F), 0x80 ||| (n &&& 0x3F)]
  else
    [0xF0 ||| (n >>> 18), 0x80 ||| ((n >>> 12) &&& 0x3F),
     0x80 ||| ((n >>> 6) &&& 0x3F), 0x80 ||| (n &&& 0x3F)]

/-- UTF-8 encoding of a string. -/
def utf8Encode (s : String) : List Nat :=
  (s.data.map utf8EncodeChar).flatten

/-- Lowercase hex digit. -/
def hexDigit (n : Nat) : Char :=
  "0123456789abcdef".data.getD n '0'

/-- Hex characters of a byte list. -/
def hexChars (bs : List Nat) : List Char :=
  (bs.map (fun b => [hexDigit (b / 16), hexDigit (b % 16)])).flatten

/-- Lowercase hex string of a byte list (`digest('hex')`). -/
def bytesToHex (bs : List Nat) : String :=
  String.mk (hexChars bs)

/-- Source `deriveAgentId(publicKeyHex)`:
`crypto.createHash('sha256').update(publicKeyHex).digest('hex').substring(0, 16)`
— the hash input is the UTF-8 bytes of the hex *string*, never its decoded
bytes; `substring(0, 16)` on the ASCII hex digest is its first 16
characters. -/
def deriveAgentId (publicKeyHex : String) : String :=
  String.mk ((hexChars (sha256 (utf8Encode publicKeyHex))).take 16)

/-! ### Reconnect-cycle trace (derived from src/ws/connection.ts)

The delays scheduled by consecutive failed reconnect cycles: each cycle is
the pending timer firing (re-entering `connect()`) followed by the resulting
unexpected close of the failed attempt, which schedules the next timer.
The first step is the original unexpected closure itself. -/

def reconnectDelayTrace (cfg : WsConfig) : WsState → Nat → List Nat
  | _, 0 => []
  | s, k + 1 =>
    let s1 := wsStep cfg s .closeEvt
    s1.reconnectTimer.getD 0 :: reconnectDelayTrace cfg (wsStep cfg s1 .timerFire) k

/-! ### Concrete fixtures used by witnesses and counterexamples -/

/-- A loop configuration with no handlers at all. -/
def cfgNoHandlers : LoopCfg :=
  { tickInterval := 60000, autoConnect := true, immediateFirstTick := true,
    onTick := none, onStart := none, onStop := none,
    hasOnDm := false, hasOnMention := false, hasOnNotification := false,
    hasOnUnread := false, hasOnWatchUpdate := false }

/-- A tick handler that, on a context with an empty state bag, records a
marker in the bag and throws; on any later invocation it returns normally. -/
def flagThenThrowHandler : LoopHandler :=
  fun ctx =>
    if ctx.stateBag = [] then ({ ctx with stateBag := [("failed", "1")] }, some "boom")
    else (ctx, none)

/-- A loop configuration whose tick handler is `flagThenThrowHandler`. -/
def cfgTickThrowOnce : LoopCfg :=
  { cfgNoHandlers with tickInterval := 5000, onTick := some flagThenThrowHandler }

/-- A context as it stands right after a successful `start()`. -/
def runningCtx : LoopCtx :=
  { agentId := some "agent-1", tickCount := 0, running := true, lastTickAt := none,
    stateBag := [], stopRequested := false }

/-- A loop state as it stands right after a successful `start()`. -/
def runningState : LoopState :=
  { ctx := runningCtx, started := true, tickTimerArmed := true,
    boundListeners := [], wsConnected := true, errorLog := [] }

/-- A freshly constructed, never-started loop state. -/
def idleState : LoopState :=
  { ctx := { agentId := none, tickCount := 0, running := false, lastTickAt := none,
             stateBag := [], stopRequested := false },
    started := false, tickTimerArmed := false,
    boundListeners := [], wsConnected := false, errorLog := [] }

/-- Listener effect used against the live-set dispatch: listener 1 removes
listener 2 while running; other listeners remove nothing. -/
def removeSecondListener : Nat → List Nat :=
  fun l => if l = 1 then [2] else []

/-- The WebSocket configuration with the constructor defaults. -/
def wsDefaultConfig : WsConfig :=
  { autoReconnect := true, maxReconnectDelay := 30000 }

/-- A freshly opened connection state (after the `open` listener ran). -/
def wsOpenState : WsState :=
  { reconnectAttempt := 0, reconnectTimer := none, intentionalClose := false, wsOpen := true }

/-- A notification frame payload whose inner type is the watch-update marker. -/
def watchPayload : JsValue :=
  JsValue.obj [("notification",
    JsValue.obj [("id", JsValue.str "n1"), ("type", JsValue.str "watch_update")])]

/-- A notification frame payload with a non-watch inner type. -/
def plainPayload : JsValue :=
  JsValue.obj [("notification",
    JsValue.obj [("id", JsValue.str "n2"), ("type", JsValue.str "comment")])]

/-- A 429 response with a `Retry-After: 2` header and an empty JSON body. -/
def resp429 : HttpResponse :=
  { status := 429, retryAfter := some 2, json := JsValue.obj [],
    statusText := "Too Many Requests" }

/-- A 200 response whose JSON body is a small object. -/
def resp200 : HttpResponse :=
  { status := 200, retryAfter := none,
    json := JsValue.obj [("ok", JsValue.boolean true)], statusText := "OK" }

/-- A server that rate-limits the first attempt and accepts the second. -/
def responses429Then200 : Nat → HttpResponse :=
  fun i => if i = 0 then resp429 else resp200

/-- The stream of nonces `generateNonce()` would produce, one per draw. -/
def nonceStream : Nat → String := fun i => "nonce-" ++ toString i

/-- The stream of second-resolution timestamps, one per draw. -/
def tsStream : Nat → String := fun _ => "1700000000"

/-- A concrete stand-in for the Ed25519 signing primitive. -/
def sigOf : String → String → String :=
  fun key msg => "sig:" ++ key ++ ":" ++ msg

/-- The rate-limited run for the retry claim: an authenticated GET with
`retryOnRateLimit = true` and `maxRetries = 1` (the documented defaults),
against `responses429Then200`. -/
def c1Run : List InitModel × List Nat × Except ClawApiError JsValue :=
  request { retryOnRateLimit := true, maxRetries := 1 } sigOf
    (some "privkey-der", some "agent-1") none nonceStream tsStream
    HttpMethod.GET none true [] responses429Then200

/-- The same request with the retry flag disabled. -/
def c1RunNoRetry : List InitModel × List Nat × Except ClawApiError JsValue :=
  request { retryOnRateLimit := false, maxRetries := 1 } sigOf
    (some "privkey-der", some "agent-1") none nonceStream tsStream
    HttpMethod.GET none true [] responses429Then200

/-! ## Theorems -/

/-- C4: for every body string, nonce and timestamp, the message that gets
signed is the plain concatenation body ++ nonce ++ timestamp with no
separators and no re-ordering; and for every request carrying no application
body — GET requests, requests with an undefined body, and the WebSocket
handshake — the body string signed is exactly the two-character literal
consisting of an opening and a closing brace. -/
theorem C4_signature_message_concatenation :
    (∀ body nonce timestamp : String,
       buildSignatureMessage (JsValue.str body) nonce timestamp = body ++ nonce ++ timestamp) ∧
    (∀ body : Option JsValue, requestSignBody HttpMethod.GET body = "\x7b\x7d") ∧
    (∀ m : HttpMethod, requestSignBody m none = "\x7b\x7d") ∧
    (∀ (sign : String → String → String) (agentId privateKey : String)
       (manifestHash : Option String) (nonce timestamp : String),
       (wsConnectClawHeaders sign agentId privateKey manifestHash nonce timestamp).signature
         = sign privateKey ("\x7b\x7d" ++ nonce ++ timestamp)) := by
  refine ⟨fun b n t => rfl, fun body => rfl, fun m => ?_, fun sg a p m n t => rfl⟩
  cases m <;> rfl

/-- C5: the derived agent identity is the first 16 hex characters of SHA-256
computed over the hex public-key string itself — a pure function of the
string; hashing the string is not hashing its decoded bytes, and two hex
strings differing only in casing yield different identities, both exhibited
at concrete inputs. -/
theorem C5_identity_from_hex_string :
    (∀ s : String,
       deriveAgentId s = String.mk ((hexChars (sha256 (utf8Encode s))).take 16)) ∧
    deriveAgentId "ab" ≠ deriveAgentId "AB" ∧
    deriveAgentId "abcd" ≠ String.mk ((hexChars (sha256 [0xab, 0xcd])).take 16) :=
  ⟨fun _ => rfl, by decide, by decide⟩

/-- SHA-256 embedding validation against the FIPS 180-2 "abc" test vector
(also exercised by the repository's signing tests via Node's crypto). -/
theorem sha256_fips_vector_abc :
    bytesToHex (sha256 (utf8Encode "abc")) =
      "ba7816bf8f01cfea414140de5dae2223b00361a396177a9cb410ff61f20015ad" := by
  decide

/-- C1: for every authenticated request answered with HTTP 429 under the
documented defaults (`retryOnRateLimit = true`, `maxRetries = 1`), the
transport waits `Retry-After * 1000` ms (or the 1000 ms fallback) and
performs exactly one retry whose `RequestInit` is rebuilt by a fresh
`buildInit()` call — the first attempt signs with the nonce/timestamp drawn
at index 0 and the retry with those drawn at index 1, so the retry's nonce
differs from the first attempt's; with the retry flag disabled the call fails
immediately with the typed API error after a single attempt and no retry. -/
theorem C1_retry_fresh_nonce (sign : String → String → String)
    (privateKey agentId : String) (manifestHash : Option String)
    (nonces timestamps : Nat → String) (method : HttpMethod) (body : Option JsValue)
    (extraHeaders : List (String × String)) (responses : Nat → HttpResponse)
    (h429 : (responses 0).status = 429) (hfresh : nonces 0 ≠ nonces 1) :
    ((request ⟨true, 1⟩ sign (some privateKey, some agentId) manifestHash nonces timestamps
        method body true extraHeaders responses).1.map
          (fun i => i.clawHeaders.map ClawHeaders.nonce)
      = [some (nonces 0), some (nonces 1)]) ∧
    ((request ⟨true, 1⟩ sign (some privateKey, some agentId) manifestHash nonces timestamps
        method body true extraHeaders responses).2.1 = [retryWaitMs (responses 0)]) ∧
    ((request ⟨true, 1⟩ sign (some privateKey, some agentId) manifestHash nonces timestamps
        method body true extraHeaders responses).2.2 = settleResponse (responses 1)) ∧
    (∃ n0 n1 : String,
      (request ⟨true, 1⟩ sign (some privateKey, some agentId) manifestHash nonces timestamps
          method body true extraHeaders responses).1.map
            (fun i => i.clawHeaders.map ClawHeaders.nonce)
        = [some n0, some n1] ∧ n0 ≠ n1) ∧
    ((request ⟨false, 1⟩ sign (some privateKey, some agentId) manifestHash nonces timestamps
        method body true extraHeaders responses).1.map
          (fun i => i.clawHeaders.map ClawHeaders.nonce)
      = [some (nonces 0)]) ∧
    ((request ⟨false, 1⟩ sign (some privateKey, some agentId) manifestHash nonces timestamps
        method body true extraHeaders responses).2.1 = []) ∧
    ((request ⟨false, 1⟩ sign (some privateKey, some agentId) manifestHash nonces timestamps
        method body true extraHeaders responses).2.2
      = Except.error (mkApiError (responses 0))) := by
  refine ⟨?_, ?_, ?_, ⟨nonces 0, nonces 1, ?_, hfresh⟩, ?_, ?_, ?_⟩ <;>
    simp [request, executeWithRetry, executeWithRetryGo, buildInit, buildClawHeaders, h429,
      settleResponse, HttpResponse.resOk]

/-- Witness for C1 at concrete inputs: against a server answering 429
(Retry-After: 2) then 200, the two attempts carry the distinct nonces drawn
at indices 0 and 1 and the transport waits 2000 ms; with the flag disabled
there is no wait and the call fails at once with the typed 429 error. -/
theorem C1_witness :
    c1Run.1.map (fun i => i.clawHeaders.map ClawHeaders.nonce)
      = [some (nonceStream 0), some (nonceStream 1)] ∧
    c1Run.2.1 = [2000] ∧
    c1RunNoRetry.2.1 = [] ∧
    c1RunNoRetry.2.2 = Except.error ⟨429, "HTTP_429", "Too Many Requests", none⟩ := by
  have h := C1_retry_fresh_nonce sigOf "privkey-der" "agent-1" none nonceStream tsStream
    HttpMethod.GET none [] responses429Then200 rfl (by decide)
  exact ⟨h.1, h.2.1, h.2.2.2.2.2.1, h.2.2.2.2.2.2⟩

/-- C9: `start()` called while the loop is already running rejects with the
"already running" error and leaves the state — in particular the `running`
getter, which returns `started` — untouched; `stop()` on an idle or
never-started loop is an idempotent no-op returning the state unchanged. -/
theorem C9_start_stop_lifecycle :
    (∀ (cfg : LoopCfg) (rid cr : Option String) (now : Nat) (s : LoopState),
       s.started = true →
       startLoop cfg rid cr now s
         = (s, some "AgentLoop is already running. Call stop() first.")) ∧
    (∀ (cfg : LoopCfg) (s : LoopState), s.started = false → stopLoop cfg s = s) := by
  constructor
  · intro cfg rid cr now s h
    simp [startLoop, h]
  · intro cfg s h
    simp [stopLoop, h]

/-- Witness for C9 at concrete inputs: a running state rejects a second
`start()` and stays as it is; a never-started state is unchanged by `stop()`. -/
theorem C9_witness :
    startLoop cfgNoHandlers none none 0 runningState
      = (runningState, some "AgentLoop is already running. Call stop() first.") ∧
    stopLoop cfgNoHandlers idleState = idleState :=
  ⟨C9_start_stop_lifecycle.1 cfgNoHandlers none none 0 runningState rfl,
   C9_start_stop_lifecycle.2 cfgNoHandlers idleState rfl⟩

/-- C10: whenever the loop is not in the started state, a tick-timer firing
is a complete no-op — `executeTick` returns the state unchanged for every
configuration, so the tick handler is not consulted and neither `tickCount`
nor `lastTickAt` moves; `stop()` always leaves `started = false`, so a tick
already queued when `stop()` ran does nothing after shutdown. -/
theorem C10_tick_noop_when_not_started :
    (∀ (cfg : LoopCfg) (now : Nat) (s : LoopState), s.started = false →
       executeTick cfg now s = s) ∧
    (∀ (cfg : LoopCfg) (s : LoopState), (stopLoop cfg s).started = false) ∧
    (∀ (cfg : LoopCfg) (now : Nat) (s : LoopState),
       executeTick cfg now (stopLoop cfg s) = stopLoop cfg s) := by
  have hstop : ∀ (cfg : LoopCfg) (s : LoopState), (stopLoop cfg s).started = false := by
    intro cfg s
    by_cases h : s.started = false
    · simp [stopLoop, h]
    · simp only [stopLoop, if_neg h]
      cases hcfg : cfg.onStop with
      | none => rfl
      | some f =>
        simp only [safeCallResult]
        rcases f _ with ⟨ctx', err⟩
        cases err <;> rfl
  have hnoop : ∀ (cfg : LoopCfg) (now : Nat) (s : LoopState), s.started = false →
      executeTick cfg now s = s := by
    intro cfg now s h
    unfold executeTick
    rw [h]
  exact ⟨hnoop, hstop, fun cfg now s => hnoop cfg now _ (hstop cfg s)⟩

/-- Witness for C10 at concrete inputs: a queued tick fired on an idle state,
and on a state just shut down, changes nothing. -/
theorem C10_witness :
    executeTick cfgTickThrowOnce 100 idleState = idleState ∧
    (stopLoop cfgNoHandlers runningState).started = false :=
  ⟨C10_tick_noop_when_not_started.1 cfgTickThrowOnce 100 idleState rfl,
   C10_tick_noop_when_not_started.2.1 cfgNoHandlers runningState⟩

/-- C2 counterexample: at a concrete running loop whose tick handler throws,
the error handler is invoked exactly once with source `tick` — but
`tickCount` has NOT advanced past the failing tick and `lastTickAt` was not
updated, refuting the claim as stated. -/
theorem C2_counterexample :
    (executeTick cfgTickThrowOnce 100 runningState).errorLog
      = [("boom", ErrorSource.tick)] ∧
    ¬ ((executeTick cfgTickThrowOnce 100 runningState).ctx.tickCount
        > runningState.ctx.tickCount) ∧
    (executeTick cfgTickThrowOnce 100 runningState).ctx.lastTickAt = none := by
  refine ⟨rfl, ?_, rfl⟩
  decide

/-- C2 (amended): for every tick firing whose tick handler throws (and does
not request a stop), the configured error handler is invoked exactly once
with source `tick`, the loop keeps running with its interval timer still
armed, and the next scheduled tick still fires and completes; but `tickCount`
and `lastTickAt` do NOT advance past the failing tick — the scheduler leaves
the context exactly as the handler left it, and the counters advance only on
a tick whose handler returns without throwing. -/
theorem C2_failing_tick_isolated (cfg : LoopCfg) (handler : LoopHandler)
    (s : LoopState) (now1 now2 : Nat) (ctx' ctx'' : LoopCtx) (e : String)
    (hcfg : cfg.onTick = some handler) (hs : s.started = true)
    (h1 : handler s.ctx = (ctx', some e)) (h1stop : ctx'.stopRequested = false)
    (h2 : handler ctx' = (ctx'', none)) (h2stop : ctx''.stopRequested = false) :
    (executeTick cfg now1 s).errorLog = s.errorLog ++ [(e, ErrorSource.tick)] ∧
    (executeTick cfg now1 s).ctx = ctx' ∧
    (executeTick cfg now1 s).started = true ∧
    (executeTick cfg now1 s).tickTimerArmed = s.tickTimerArmed ∧
    (executeTick cfg now2 (executeTick cfg now1 s)).ctx.tickCount = ctx''.tickCount + 1 ∧
    (executeTick cfg now2 (executeTick cfg now1 s)).ctx.lastTickAt = some now2 ∧
    (executeTick cfg now2 (executeTick cfg now1 s)).errorLog
      = s.errorLog ++ [(e, ErrorSource.tick)] := by
  have step : ∀ (now : Nat) (t : LoopState), t.started = true →
      executeTick cfg now t
        = (let t1 := safeCallResult (tickClosure handler now) ErrorSource.tick t
           if t1.ctx.stopRequested then stopLoop cfg t1 else t1) := by
    intro now t ht
    unfold executeTick
    rw [ht, hcfg]
  have e1 : executeTick cfg now1 s
      = { s with ctx := ctx', errorLog := s.errorLog ++ [(e, ErrorSource.tick)] } := by
    rw [step now1 s hs]
    simp only [safeCallResult, tickClosure, h1]
    simp [h1stop]
  have e2 : executeTick cfg now2 (executeTick cfg now1 s)
      = { s with
          ctx := { ctx'' with tickCount := ctx''.tickCount + 1, lastTickAt := some now2 },
          errorLog := s.errorLog ++ [(e, ErrorSource.tick)] } := by
    rw [e1]
    rw [step now2 { s with ctx := ctx', errorLog := s.errorLog ++ [(e, ErrorSource.tick)] } hs]
    simp only [safeCallResult, tickClosure, h2]
    simp [h2stop]
  rw [e2, e1]
  exact ⟨rfl, rfl, hs, rfl, rfl, rfl, rfl⟩

/-- Witness for the amended C2 at concrete inputs: the first tick of
`cfgTickThrowOnce` throws, is reported once under source `tick`, leaves the
count at 0, and the next tick completes and brings the count to 1 without any
further error report. -/
theorem C2_witness :
    (executeTick cfgTickThrowOnce 100 runningState).errorLog
      = [("boom", ErrorSource.tick)] ∧
    (executeTick cfgTickThrowOnce 100 runningState).started = true ∧
    (executeTick cfgTickThrowOnce 200 (executeTick cfgTickThrowOnce 100 runningState)).ctx.tickCount
      = 1 ∧
    (executeTick cfgTickThrowOnce 200 (executeTick cfgTickThrowOnce 100 runningState)).errorLog
      = [("boom", ErrorSource.tick)] := by
  have h := C2_failing_tick_isolated cfgTickThrowOnce flagThenThrowHandler runningState 100 200
    { runningCtx with stateBag := [("failed", "1")] }
    { runningCtx with stateBag := [("failed", "1")] } "boom" rfl rfl rfl rfl rfl rfl
  exact ⟨h.1, h.2.2.1, h.2.2.2.2.1, h.2.2.2.2.2.2⟩

/-- C8: each recognized event tag maps to exactly one listener-set emission
(`agent:dm` → `dm`, `agent:mentioned` → `mention`, `notification:new` →
`notification`, `notification:unread` → `unread`); a `notification:new` frame
whose inner `notification.type` is the watch-update marker is additionally
emitted to the `watch_update` set, reaching each of the two sets exactly
once; unrecognized tags and unparseable frames produce no emission at all
(the dispatcher is total, so they cannot raise). -/
theorem C8_dispatch_mapping :
    (∀ (d : JsValue) (i : Option String),
       handleMessage (some ⟨"agent:dm", d, i⟩) = [("dm", d)]) ∧
    (∀ (d : JsValue) (i : Option String),
       handleMessage (some ⟨"agent:mentioned", d, i⟩) = [("mention", d)]) ∧
    (∀ (d : JsValue) (i : Option String),
       handleMessage (some ⟨"notification:unread", d, i⟩) = [("unread", d)]) ∧
    (∀ (d : JsValue) (i : Option String), notifInnerType d ≠ some "watch_update" →
       handleMessage (some ⟨"notification:new", d, i⟩) = [("notification", d)]) ∧
    (∀ (d : JsValue) (i : Option String), notifInnerType d = some "watch_update" →
       handleMessage (some ⟨"notification:new", d, i⟩)
         = [("notification", d), ("watch_update", d)] ∧
       (handleMessage (some ⟨"notification:new", d, i⟩)).countP
         (fun p => p.1 == "notification") = 1 ∧
       (handleMessage (some ⟨"notification:new", d, i⟩)).countP
         (fun p => p.1 == "watch_update") = 1) ∧
    (∀ f : Frame,
       f.event ∉ (["agent:dm", "agent:mentioned", "notification:new",
                   "notification:unread"] : List String) →
       handleMessage (some f) = []) ∧
    handleMessage none = [] := by
  have hnew : ∀ (d : JsValue) (i : Option String),
      handleMessage (some ⟨"notification:new", d, i⟩)
        = ("notification", d) ::
            (if notifInnerType d = some "watch_update" then [("watch_update", d)] else []) :=
    fun d i => rfl
  refine ⟨fun d i => rfl, fun d i => rfl, fun d i => rfl, ?_, ?_, ?_, rfl⟩
  · intro d i h
    rw [hnew, if_neg h]
  · intro d i h
    rw [hnew, if_pos h]
    exact ⟨rfl, rfl, rfl⟩
  · intro f hf
    obtain ⟨ev, d, i⟩ := f
    simp only [List.mem_cons, List.not_mem_nil, or_false, not_or] at hf
    obtain ⟨h1, h2, h3, h4⟩ := hf
    simp only [handleMessage]

/-- Witness for C8 at concrete frames: a watch-marked notification reaches
both sets, a plain notification only the `notification` set, and an
unrecognized broadcast tag is dropped. -/
theorem C8_witness :
    handleMessage (some ⟨"notification:new", watchPayload, none⟩)
      = [("notification", watchPayload), ("watch_update", watchPayload)] ∧
    handleMessage (some ⟨"notification:new", plainPayload, none⟩)
      = [("notification", plainPayload)] ∧
    handleMessage (some ⟨"post:new", watchPayload, none⟩) = [] :=
  ⟨(C8_dispatch_mapping.2.2.2.2.1 watchPayload none rfl).1,
   C8_dispatch_mapping.2.2.2.1 plainPayload none (by decide),
   C8_dispatch_mapping.2.2.2.2.2.1 ⟨"post:new", watchPayload, none⟩ (by decide)⟩

/-- Auxiliary step for live-set iteration: when the first unvisited member of
a duplicate-free set is `l`, marking `l` visited removes exactly the head of
the unvisited sublist. -/
theorem filter_unvisited_step (set : List Nat) :
    ∀ (visited : List Nat) (l : Nat), set.Nodup →
      set.find? (fun x => ! visited.contains x) = some l →
      set.filter (fun x => ! visited.contains x)
        = l :: set.filter (fun x => ! (visited ++ [l]).contains x) := by
  induction set with
  | nil => intro visited l _ hfind; simp at hfind
  | cons a rest ih =>
    intro visited l hnd hfind
    have hnd' := List.nodup_cons.mp hnd
    cases hpa : (! visited.contains a) with
    | false =>
      simp only [List.find?_cons, hpa] at hfind
      have hav : a ∈ visited := by simpa [List.contains] using hpa
      have hpa' : (! (visited ++ [l]).contains a) = false := by
        simp [List.contains, hav]
      simp only [List.filter_cons, hpa, hpa', Bool.false_eq_true, if_false]
      exact ih visited l hnd'.2 hfind
    | true =>
      simp only [List.find?_cons, hpa] at hfind
      injection hfind with hal
      subst hal
      have hpl' : (! (visited ++ [a]).contains a) = false := by
        simp [List.contains]
      simp only [List.filter_cons, hpa, hpl', Bool.false_eq_true, if_false, if_true]
      refine congrArg (a :: ·) (List.filter_congr ?_)
      intro x hx
      have hxa : x ≠ a := fun hEq => hnd'.1 (hEq ▸ hx)
      simp [List.contains, hxa]

/-- Live-set iteration with no removals visits exactly the unvisited members
of the set, in order. -/
theorem emitLiveIter_no_removals (removes : Nat → List Nat) :
    ∀ (fuel : Nat) (set visited : List Nat), set.Nodup →
      (∀ l ∈ set, removes l = []) →
      (set.filter (fun x => ! visited.contains x)).length ≤ fuel →
      emitLiveIter removes fuel set visited
        = set.filter (fun x => ! visited.contains x) := by
  intro fuel
  induction fuel with
  | zero =>
    intro set visited _ _ hlen
    have h0 : set.filter (fun x => ! visited.contains x) = [] :=
      List.eq_nil_of_length_eq_zero (Nat.le_zero.mp hlen)
    rw [h0]
    rfl
  | succ fuel ih =>
    intro set visited hnd hno hlen
    cases hfind : set.find? (fun x => ! visited.contains x) with
    | none =>
      have hfil : set.filter (fun x => ! visited.contains x) = [] := by
        apply List.filter_eq_nil_iff.mpr
        intro a ha
        have := List.find?_eq_none.mp hfind a ha
        simpa using this
      rw [hfil]
      unfold emitLiveIter
      rw [hfind]
    | some l =>
      have hmem : l ∈ set := List.mem_of_find?_eq_some hfind
      have hstep := filter_unvisited_step set visited l hnd hfind
      have hset' : set.filter (fun x => ! (removes l).contains x) = set := by
        rw [hno l hmem]
        simp
      have hlen' : (set.filter (fun x => ! (visited ++ [l]).contains x)).length ≤ fuel := by
        have := congrArg List.length hstep
        simp only [List.length_cons] at this
        omega
      have hrec := ih set (visited ++ [l]) hnd hno hlen'
      unfold emitLiveIter
      rw [hfind]
      simp only [hset', hrec]
      exact hstep.symm

/-- C3 counterexample: with listeners 1 and 2 registered for the same event
kind, listener 1 removing listener 2 during dispatch prevents listener 2 —
which was registered when the emission began — from being invoked for that
emission: the live `Set` iteration skips a removed, not-yet-visited member. -/
theorem C3_counterexample :
    (2 : Nat) ∈ ([1, 2] : List Nat) ∧
    emitOnSet removeSecondListener [1, 2] = [1] ∧
    (2 : Nat) ∉ emitOnSet removeSecondListener [1, 2] :=
  ⟨by decide, rfl, by decide⟩

/-- C3 (amended): `emit` iterates the live listener set, so removal during
dispatch of the same event kind does affect the in-flight dispatch — a
not-yet-visited listener that is removed is skipped (see the counterexample);
what holds is that every listener that stays in the set is still invoked:
when no listener removes any listener during the dispatch, every listener
registered at the moment the emission began is invoked exactly once, in
registration order. -/
theorem C3_emit_without_removal_visits_all (removes : Nat → List Nat)
    (set : List Nat) (hnd : set.Nodup) (hno : ∀ l ∈ set, removes l = []) :
    emitOnSet removes set = set := by
  have h0 : set.filter (fun x => ! ([] : List Nat).contains x) = set := by
    simp
  have hmain := emitLiveIter_no_removals removes set.length set [] hnd hno
    (by simp [h0])
  show emitLiveIter removes set.length set [] = set
  rw [hmain, h0]

/-- Witness for the amended C3 at a concrete set: with three listeners and no
removals, all three fire in registration order. -/
theorem C3_witness :
    emitOnSet (fun _ => ([] : List Nat)) [1, 2, 3] = [1, 2, 3] :=
  C3_emit_without_removal_visits_all (fun _ => []) [1, 2, 3] (by decide)
    (by decide)

/-- The delays collected by `reconnectDelayTrace` starting from attempt
counter `a` follow `min(1000 * 2^(a+i), cap)` for `i = 0, 1, ...`. -/
theorem reconnectDelayTrace_formula (cfg : WsConfig) :
    ∀ (k : Nat) (s : WsState), s.intentionalClose = false → cfg.autoReconnect = true →
      reconnectDelayTrace cfg s k
        = (List.range k).map
            (fun i => min (1000 * 2 ^ (s.reconnectAttempt + i)) cfg.maxReconnectDelay) := by
  intro k
  induction k with
  | zero => intro s h1 h2; rfl
  | succ k ih =>
    intro s h1 h2
    have hclose : wsStep cfg s .closeEvt = { s with wsOpen := false, reconnectAttempt := s.reconnectAttempt + 1, reconnectTimer := some (min (1000 * 2 ^ s.reconnectAttempt) cfg.maxReconnectDelay) } := by
      simp only [wsStep, scheduleReconnect, h1, h2]
      simp
    have hfire : wsStep cfg (wsStep cfg s .closeEvt) .timerFire = { s with wsOpen := false, reconnectAttempt := s.reconnectAttempt + 1, reconnectTimer := none, intentionalClose := false } := by
      rw [hclose]
      simp only [wsStep]
      rfl
    show (wsStep cfg s .closeEvt).reconnectTimer.getD 0
        :: reconnectDelayTrace cfg (wsStep cfg (wsStep cfg s .closeEvt) .timerFire) k = _
    rw [hfire, hclose, ih _ rfl h2]
    simp only [Option.getD_some]
    rw [List.range_succ_eq_map]
    simp only [List.map_cons, List.map_map, Nat.add_zero, Function.comp]
    refine congrArg (_ :: ·) (List.map_congr_left ?_)
    intro i _
    show 1000 * 2 ^ (s.reconnectAttempt + 1 + i) ⊓ cfg.maxReconnectDelay
        = 1000 * 2 ^ (s.reconnectAttempt + (i + 1)) ⊓ cfg.maxReconnectDelay
    have hexp : s.reconnectAttempt + 1 + i = s.reconnectAttempt + (i + 1) := by omega
    rw [hexp]

/-- C6: the k-th reconnect attempt after consecutive unexpected closures
(k counted from 0, counter starting at 0) is scheduled after
`min(1000 * 2^k, maxReconnectDelay)` milliseconds — 1s, 2s, 4s, ... capped at
the ceiling; scheduling a reconnect increments the attempt counter; only the
`open` event resets the counter to zero (every other event never decreases
it), and after one successful reopen the next unexpected closure schedules
`min(1000, cap)` again; a failed reconnect surfaces as a further close event
and reschedules through the same path rather than propagating. -/
theorem C6_reconnect_backoff :
    (∀ (cfg : WsConfig) (s : WsState), s.intentionalClose = false → cfg.autoReconnect = true →
       (wsStep cfg s .closeEvt).reconnectTimer
         = some (min (1000 * 2 ^ s.reconnectAttempt) cfg.maxReconnectDelay) ∧
       (wsStep cfg s .closeEvt).reconnectAttempt = s.reconnectAttempt + 1) ∧
    (∀ (cfg : WsConfig) (s : WsState), (wsStep cfg s .openEvt).reconnectAttempt = 0) ∧
    (∀ (cfg : WsConfig) (s : WsState) (e : WsEvent), e ≠ WsEvent.openEvt →
       s.reconnectAttempt ≤ (wsStep cfg s e).reconnectAttempt) ∧
    (∀ (cfg : WsConfig) (s : WsState) (k : Nat),
       s.intentionalClose = false → cfg.autoReconnect = true → s.reconnectAttempt = 0 →
       reconnectDelayTrace cfg s k
         = (List.range k).map (fun i => min (1000 * 2 ^ i) cfg.maxReconnectDelay)) ∧
    (∀ (cfg : WsConfig) (s : WsState), s.intentionalClose = false → cfg.autoReconnect = true →
       (wsStep cfg (wsStep cfg s .openEvt) .closeEvt).reconnectTimer
         = some (min 1000 cfg.maxReconnectDelay)) := by
  refine ⟨?_, ?_, ?_, ?_, ?_⟩
  · intro cfg s h1 h2
    constructor <;> simp [wsStep, scheduleReconnect, h1, h2]
  · intro cfg s
    rfl
  · intro cfg s e he
    cases e with
    | openEvt => exact absurd rfl he
    | closeEvt =>
      simp only [wsStep]
      split
      · simp [scheduleReconnect]
      · exact Nat.le_refl _
    | errorEvt => exact Nat.le_refl _
    | disconnectCall => exact Nat.le_refl _
    | connectCall =>
      simp only [wsStep]
      split <;> exact Nat.le_refl _
    | timerFire =>
      simp only [wsStep]
      cases s.reconnectTimer with
      | none => exact Nat.le_refl _
      | some d =>
        simp only []
        split <;> exact Nat.le_refl _
  · intro cfg s k h1 h2 h0
    rw [reconnectDelayTrace_formula cfg k s h1 h2, h0]
    simp
  · intro cfg s h1 h2
    have hopen : (wsStep cfg s .openEvt)
        = { s with reconnectAttempt := 0, wsOpen := true } := rfl
    rw [hopen]
    simp [wsStep, scheduleReconnect, h1, h2]

/-- Witness for C6 at the default configuration: six consecutive failed
reconnect cycles schedule 1s, 2s, 4s, 8s, 16s and then the 30s cap, and the
first unexpected closure after a fresh open schedules 1s. -/
theorem C6_witness :
    reconnectDelayTrace wsDefaultConfig wsOpenState 6
      = [1000, 2000, 4000, 8000, 16000, 30000] ∧
    (wsStep wsDefaultConfig wsOpenState .closeEvt).reconnectTimer = some 1000 := by
  constructor
  · rw [C6_reconnect_backoff.2.2.2.1 wsDefaultConfig wsOpenState 6 rfl rfl rfl]
    rfl
  · rw [(C6_reconnect_backoff.1 wsDefaultConfig wsOpenState rfl rfl).1]
    rfl

/-- Quiescence invariant: once `intentionalClose` is set and the reconnect
timer is cleared, every event other than a fresh `connect()` call preserves
both. -/
theorem wsStep_preserves_quiescence (cfg : WsConfig) (s : WsState) (e : WsEvent)
    (h1 : s.intentionalClose = true) (h2 : s.reconnectTimer = none)
    (he : e ≠ WsEvent.connectCall) :
    (wsStep cfg s e).intentionalClose = true ∧ (wsStep cfg s e).reconnectTimer = none := by
  cases e with
  | openEvt => exact ⟨h1, h2⟩
  | closeEvt => simp [wsStep, h1, h2]
  | errorEvt => exact ⟨h1, h2⟩
  | disconnectCall => exact ⟨rfl, rfl⟩
  | connectCall => exact absurd rfl he
  | timerFire =>
    simp only [wsStep, h2]
    exact ⟨h1, trivial⟩

/-- Quiescence is preserved by any sequence of events that contains no
`connect()` call. -/
theorem wsFoldl_quiescent (cfg : WsConfig) :
    ∀ (evs : List WsEvent) (s : WsState), s.intentionalClose = true →
      s.reconnectTimer = none → WsEvent.connectCall ∉ evs →
      (evs.foldl (wsStep cfg) s).intentionalClose = true ∧
      (evs.foldl (wsStep cfg) s).reconnectTimer = none := by
  intro evs
  induction evs with
  | nil => intro s h1 h2 _; exact ⟨h1, h2⟩
  | cons e rest ih =>
    intro s h1 h2 hmem
    have hne : e ≠ WsEvent.connectCall := by
      intro hEq
      exact hmem (hEq ▸ List.mem_cons_self e rest)
    have hs := wsStep_preserves_quiescence cfg s e h1 h2 hne
    simp only [List.foldl_cons]
    exact ih (wsStep cfg s e) hs.1 hs.2 (fun hm => hmem (List.mem_cons_of_mem e hm))

/-- C7: a caller-initiated `disconnect()` synchronously sets
`intentionalClose` and cancels any pending reconnect timer; the close event
of that intentional close is a complete no-op on the connection state (it
schedules nothing); and along any subsequent event sequence that does not
re-enter `connect()`, no reconnect timer is ever armed. -/
theorem C7_disconnect_suppresses_reconnect :
    (∀ s : WsState,
       (wsDisconnect s).reconnectTimer = none ∧ (wsDisconnect s).intentionalClose = true) ∧
    (∀ (cfg : WsConfig) (s : WsState),
       wsStep cfg (wsDisconnect s) WsEvent.closeEvt = wsDisconnect s) ∧
    (∀ (cfg : WsConfig) (s : WsState) (evs : List WsEvent), WsEvent.connectCall ∉ evs →
       (evs.foldl (wsStep cfg) (wsDisconnect s)).reconnectTimer = none) := by
  refine ⟨fun s => ⟨rfl, rfl⟩, ?_, ?_⟩
  · intro cfg s
    simp [wsStep, wsDisconnect]
  · intro cfg s evs h
    exact (wsFoldl_quiescent cfg evs (wsDisconnect s) rfl rfl h).2

/-- Witness for C7 at concrete inputs: disconnecting with a pending 4s timer
clears it at once, and the subsequent close and error events leave the timer
unarmed. -/
theorem C7_witness :
    (wsDisconnect { wsOpenState with reconnectTimer := some 4000 }).reconnectTimer = none ∧
    (([WsEvent.closeEvt, WsEvent.errorEvt, WsEvent.closeEvt].foldl (wsStep wsDefaultConfig)
        (wsDisconnect { wsOpenState with reconnectTimer := some 4000 })).reconnectTimer
      = none) :=
  ⟨(C7_disconnect_suppresses_reconnect.1 { wsOpenState with reconnectTimer := some 4000 }).1,
   C7_disconnect_suppresses_reconnect.2.2 wsDefaultConfig
     { wsOpenState with reconnectTimer := some 4000 }
     [WsEvent.closeEvt, WsEvent.errorEvt, WsEvent.closeEvt] (by decide)⟩

end ClawSDK
